import Mathlib

/-!
Verification of the Jade repository's local persistence and reconciliation
engine (a shallow embedding of the TypeScript source).

The repository contains two variants of the top-level App controller
(`src/unnamed/part_000` and `src/unnamed/part_001`); where they differ the
embedding keeps both (`init0` for part_000's `init`, `init1` for part_001's
`init`).  The IndexedDB layer (`utils/db.ts`, found in `src/unnamed/part_003`)
is embedded as a key/value map for the state store and as explicit function
parameters `getAsset : String -> Option Blob` for the asset store; the
browser primitives `URL.createObjectURL`, `crypto.randomUUID` and
fetch-plus-FileReader transcoding are passed in as function parameters
(`mkUrl`, `freshId`, `enc`), since they are external effects the code only
calls.  JavaScript string truthiness (empty string is falsy) is modelled by
`jsOr` and emptiness tests, and `undefined` optional fields by `Option`.
-/

namespace Jade

/-- Binary payload stored in the asset store (opaque; modelled as a string). -/
abbrev Blob := String

/-- A star's fixed placement.  Coordinates are carried opaquely (no claim
computes on them); the source stores a number triple. -/
abbrev Position := Int × Int × Int

/-- `StarData` from `types.ts`: optional fields are `Option`. -/
structure StarData where
  id : Nat
  position : Position
  images : List String
  imageAssetIds : Option (List String)
  text : Option String
  isActive : Bool
  viewCount : Nat
deriving Repr, DecidableEq

/-- `Song` from `types.ts`. -/
structure Song where
  id : String
  name : String
  url : String
  assetId : Option String
deriving Repr, DecidableEq

/-- `GameState` from `utils/db.ts`: the persisted Document. -/
structure GameState where
  stars : List StarData
  playlist : List Song
  playbackCount : Nat
deriving Repr, DecidableEq

/-- JavaScript `a || b` specialised to strings: the empty string is falsy. -/
def jsOr (a b : String) : String := if a = "" then b else a

/-- Character-list core of JavaScript `String.prototype.startsWith`. -/
def charsStartWith : List Char → List Char → Bool
  | _, [] => true
  | [], _ :: _ => false
  | c :: cs, d :: ds => c == d && charsStartWith cs ds

/-- JavaScript `s.startsWith(p)`. -/
def strStartsWith (s p : String) : Bool := charsStartWith s.data p.data

/-- `DB.saveGameState`: `store.put(state, 'current')` on the `state` object
store — a wholesale overwrite under the single fixed key `"current"`. -/
def saveGameState (state : GameState) (store : String → Option GameState) :
    String → Option GameState :=
  fun k => if k = "current" then some state else store k

/-- `DB.loadGameState`: `store.get('current')`, with `request.result || null`
modelled as the `Option` result. -/
def loadGameState (store : String → Option GameState) : Option GameState :=
  store "current"

/-- The ephemeral handle obtained for each persisted asset id during the
startup restore: `blobs.map(b => b ? URL.createObjectURL(b) : '')`. -/
def blobUrlsOf (getAsset : String → Option Blob) (mkUrl : Blob → String)
    (ids : List String) : List String :=
  ids.map fun a =>
    match getAsset a with
    | some b => mkUrl b
    | none => ""

/-- `imageUrls.map((original, i) => blobUrls[i] || original)`: positional
merge of the resolved handles into the prior image-reference list.  An index
beyond `blobUrls` reads JavaScript `undefined`, which is falsy, hence the
`getD i ""`. -/
def resolveSlots (blobUrls : List String) : Nat → List String → List String
  | _, [] => []
  | i, orig :: rest =>
      jsOr (blobUrls.getD i "") orig :: resolveSlots blobUrls (i + 1) rest

/-- The star-restore step of `init` (identical in part_000 lines 54-65 and
part_001 lines 76-87): when the saved star has a non-empty asset-id list,
resolve each id, fall back positionally to the prior image reference, and
`filter(Boolean)` the result; otherwise the star is returned unchanged. -/
def restoreStar (getAsset : String → Option Blob) (mkUrl : Blob → String)
    (s : StarData) : StarData :=
  match s.imageAssetIds with
  | some ids =>
      if ids.length > 0 then
        let blobUrls := blobUrlsOf getAsset mkUrl ids
        { s with images := (resolveSlots blobUrls 0 s.images).filter (fun u => u != "") }
      else s
  | none => s

/-- The song-restore step of `init`: a song with a truthy asset id whose
asset resolves gets a fresh ephemeral url, otherwise it is kept as is. -/
def restoreSong (getAsset : String → Option Blob) (mkUrl : Blob → String)
    (s : Song) : Song :=
  match s.assetId with
  | some aid =>
      if aid = "" then s
      else
        match getAsset aid with
        | some b => { s with url := mkUrl b }
        | none => s
  | none => s

/-- `restoredPlaylist.filter(s => s.url)`: drop songs with an empty url. -/
def restorePlaylist (getAsset : String → Option Blob) (mkUrl : Blob → String)
    (playlist : List Song) : List Song :=
  (playlist.map (restoreSong getAsset mkUrl)).filter (fun s => s.url != "")

/-- Result of running `init`: the live model plus the Documents it wrote. -/
structure InitResult where
  stars : List StarData
  playlist : List Song
  playbackCount : Nat
  saves : List GameState
deriving Repr, DecidableEq

/-- `init` of part_001 (lines 70-111).  `saved` is what `DB.loadGameState`
returned; `seedStars`/`seedPlaylist`/`seedCount` are `STATIC_STARS`,
`STATIC_PLAYLIST` and `INITIAL_PLAYBACK_COUNT`; `fallback` is the
`Math.random`-generated scene used when the seed star list is empty (its
numeric contents are irrelevant to the engine and passed in opaquely).
When no Document is present this variant writes nothing. -/
def init1 (getAsset : String → Option Blob) (mkUrl : Blob → String)
    (saved : Option GameState) (seedStars : List StarData)
    (seedPlaylist : List Song) (seedCount : Nat)
    (fallback : List StarData) : InitResult :=
  let initialStars := if seedStars.length > 0 then seedStars else fallback
  match saved with
  | some st =>
      { stars := st.stars.map (restoreStar getAsset mkUrl)
        playlist := restorePlaylist getAsset mkUrl st.playlist
        playbackCount := st.playbackCount
        saves := [] }
  | none =>
      { stars := initialStars
        playlist := seedPlaylist
        playbackCount := seedCount
        saves := [] }

/-- `init` of part_000 (lines 46-100).  Identical to `init1` except for
SITUATION B (lines 81-92): with no saved Document and a non-empty seed star
list it immediately persists the seed snapshot as the initial Document. -/
def init0 (getAsset : String → Option Blob) (mkUrl : Blob → String)
    (saved : Option GameState) (seedStars : List StarData)
    (seedPlaylist : List Song) (seedCount : Nat)
    (fallback : List StarData) : InitResult :=
  let initialStars := if seedStars.length > 0 then seedStars else fallback
  match saved with
  | some st =>
      { stars := st.stars.map (restoreStar getAsset mkUrl)
        playlist := restorePlaylist getAsset mkUrl st.playlist
        playbackCount := st.playbackCount
        saves := [] }
  | none =>
      { stars := initialStars
        playlist := seedPlaylist
        playbackCount := seedCount
        saves :=
          if seedStars.length > 0 then
            [{ stars := seedStars, playlist := seedPlaylist, playbackCount := seedCount }]
          else [] }

/-- `maxPlaylistSize`: `min(10, 5 + Math.floor(playbackCount / 10))`. -/
def maxPlaylistSize (playbackCount : Nat) : Nat :=
  let bonus := playbackCount / 10
  min 10 (5 + bonus)

/-- `isContinuousPlayUnlocked`: `playbackCount >= 60`. -/
def isContinuousPlayUnlocked (playbackCount : Nat) : Bool :=
  playbackCount ≥ 60

/-- The `TempImage` record of the image-attach modal. -/
structure TempImage where
  url : String
  file : Option Blob
  assetId : Option String
deriving Repr, DecidableEq

/-- One processed image inside `handleLaunchStar`. -/
structure ProcessedImage where
  url : String
  assetId : Option String
deriving Repr, DecidableEq

/-- `handleLaunchStar`'s per-image pass: a temp image carrying a `File` is
persisted under a freshly generated asset id (`freshId i` stands for the
uuid `DB.saveAsset` returns for the i-th image), one without keeps its
existing asset id. -/
def processImagesAux (freshId : Nat → String) : Nat → List TempImage → List ProcessedImage
  | _, [] => []
  | i, img :: rest =>
      (match img.file with
       | some _ => { url := img.url, assetId := some (freshId i) }
       | none => { url := img.url, assetId := img.assetId }) ::
      processImagesAux freshId (i + 1) rest

/-- Result of a mutation handler: the new star list plus written Documents. -/
structure LaunchResult where
  stars : List StarData
  saves : List GameState
deriving Repr, DecidableEq

/-- `handleLaunchStar` (part_000 lines 221-261, part_001 lines 260-303):
writes the edited star's image urls and asset ids from the same processed
list (`p.assetId || ''` supplies `''` when an id is missing), activates it,
replaces its text and resets its view count, then persists the Document. -/
def handleLaunchStar (freshId : Nat → String) (editingStarId : Option Nat)
    (tempImages : List TempImage) (tempText : String)
    (stars : List StarData) (playlist : List Song) (playbackCount : Nat) :
    LaunchResult :=
  match editingStarId with
  | none => { stars := stars, saves := [] }
  | some eid =>
      let processed := processImagesAux freshId 0 tempImages
      let finalImageUrls := processed.map (fun p => p.url)
      let finalAssetIds := processed.map (fun p => p.assetId.getD "")
      let newStars := stars.map fun star =>
        if star.id = eid then
          { star with
              isActive := true
              images := finalImageUrls
              imageAssetIds := some finalAssetIds
              text := some tempText
              viewCount := 0 }
        else star
      { stars := newStars
        saves := [{ stars := newStars, playlist := playlist, playbackCount := playbackCount }] }

/-- The temp-image prefill built by `handleStarClick`:
`star.images.map((url, index) => ({ url, assetId: star.imageAssetIds ?
star.imageAssetIds[index] : undefined }))`. -/
def starClickTempsAux (ids : Option (List String)) : Nat → List String → List TempImage
  | _, [] => []
  | i, url :: rest =>
      { url := url
        file := none
        assetId :=
          match ids with
          | some l => l.get? i
          | none => none } :: starClickTempsAux ids (i + 1) rest

/-- `handleStarClick`'s pending-image state for the clicked star. -/
def handleStarClick (star : StarData) : List TempImage :=
  starClickTempsAux star.imageAssetIds 0 star.images

/-- `processFiles`: admits at most `4 - tempImages.length` new files and
does nothing when no slot remains. -/
def processFiles (mkUrl : Blob → String) (tempImages : List TempImage)
    (files : List Blob) : List TempImage :=
  if tempImages.length ≥ 4 then tempImages
  else
    tempImages ++
      (files.take (4 - tempImages.length)).map
        (fun f => { url := mkUrl f, file := some f, assetId := none })

/-- `removeTempImage`: `prev.filter((_, i) => i !== index)`. -/
def removeTempImage (i : Nat) (tempImages : List TempImage) : List TempImage :=
  tempImages.eraseIdx i

/-- The pending-image states the image-attach modal can reach over a fixed
star list: the empty initial state, the prefill built by `handleStarClick`
on a star of the scene, adding files via `processFiles`, and removing one
slot via `removeTempImage` (`handleLaunchStar` resets to the empty state,
which `start` already covers). -/
inductive TempReachable (mkUrl : Blob → String) (stars : List StarData) :
    List TempImage → Prop where
  | start : TempReachable mkUrl stars []
  | click (star : StarData) : star ∈ stars →
      TempReachable mkUrl stars (handleStarClick star)
  | upload (t : List TempImage) (files : List Blob) :
      TempReachable mkUrl stars t →
      TempReachable mkUrl stars (processFiles mkUrl t files)
  | remove (t : List TempImage) (i : Nat) :
      TempReachable mkUrl stars t →
      TempReachable mkUrl stars (removeTempImage i t)

/-- Result of `handleStarView`: the new star list plus written Documents. -/
structure StarViewResult where
  stars : List StarData
  saves : List GameState
deriving Repr, DecidableEq

/-- `handleStarView` (part_000 lines 210-219, part_001 lines 249-258):
bump the view counter of stars whose id matches, persist the Document. -/
def handleStarView (id : Nat) (stars : List StarData) (playlist : List Song)
    (playbackCount : Nat) : StarViewResult :=
  let newStars := stars.map fun star =>
    if star.id = id then { star with viewCount := star.viewCount + 1 } else star
  { stars := newStars
    saves := [{ stars := newStars, playlist := playlist, playbackCount := playbackCount }] }

/-- Result of `handleMusicUpload`: playlist, selection index, written
Documents, asset-store puts, and the alert message if one was shown. -/
structure MusicUploadResult where
  playlist : List Song
  currentSongIndex : Nat
  saves : List GameState
  assetPuts : List (String × Blob)
  alertMsg : Option String
deriving Repr, DecidableEq

/-- `handleMusicUpload` (part_000 lines 161-187, part_001 lines 195-225):
reject the append with an alert and no state change when the playlist is at
or above capacity; otherwise store the file, append the new song, select it
and persist the Document.  `freshId` is the uuid `DB.saveAsset` returns and
`songId` the `generateId()` value. -/
def handleMusicUpload (mkUrl : Blob → String) (freshId : String) (file : Blob)
    (fileName : String) (stars : List StarData) (playlist : List Song)
    (currentSongIndex : Nat) (playbackCount : Nat) (songId : String) :
    MusicUploadResult :=
  if playlist.length ≥ maxPlaylistSize playbackCount then
    { playlist := playlist
      currentSongIndex := currentSongIndex
      saves := []
      assetPuts := []
      alertMsg := some ("Playlist full (Max " ++ toString (maxPlaylistSize playbackCount) ++
        "). Keep listening to unlock more space!") }
  else
    let newSong : Song := { id := songId, name := fileName, url := mkUrl file, assetId := some freshId }
    let newPlaylist := playlist ++ [newSong]
    { playlist := newPlaylist
      currentSongIndex := newPlaylist.length - 1
      saves := [{ stars := stars, playlist := newPlaylist, playbackCount := playbackCount }]
      assetPuts := [(freshId, file)]
      alertMsg := none }

/-- `urlToBase64` (part_001 lines 17-34): a `data:` url passes through;
otherwise the fetch-and-encode step (`enc`) is attempted and any failure
falls back to the original url. -/
def urlToBase64 (enc : String → Option String) (url : String) : String :=
  if strStartsWith url "data:" then url
  else
    match enc url with
    | some b => b
    | none => url

/-- The cleaned content `handleExportData` serialises. -/
structure ExportDoc where
  stars : List StarData
  playlist : List Song
  playbackCount : Nat
deriving Repr, DecidableEq

/-- `handleExportData` (part_001 lines 123-174): transcode every star image
through `urlToBase64`, transcode every non-`data:` song url, and strip the
persistent asset ids (`imageAssetIds: undefined`, `assetId: undefined`). -/
def handleExportData (enc : String → Option String) (stars : List StarData)
    (playlist : List Song) (playbackCount : Nat) : ExportDoc :=
  let cleanStars := stars.map fun s =>
    { s with images := s.images.map (urlToBase64 enc), imageAssetIds := none }
  let cleanPlaylist := playlist.map fun s =>
    { id := s.id
      name := s.name
      url := if strStartsWith s.url "data:" then s.url else urlToBase64 enc s.url
      assetId := none }
  { stars := cleanStars, playlist := cleanPlaylist, playbackCount := playbackCount }

/-- Default star used with `List.getD` in theorem statements. -/
def dStar : StarData :=
  { id := 0, position := (0, 0, 0), images := [], imageAssetIds := none
    text := none, isActive := false, viewCount := 0 }

/-- The value the restore step computes for slot `i` before filtering:
the resolved handle if non-empty, else the prior image reference. -/
def restoredSlot (getAsset : String → Option Blob) (mkUrl : Blob → String)
    (ids : List String) (images : List String) (i : Nat) : String :=
  jsOr ((blobUrlsOf getAsset mkUrl ids).getD i "") (images.getD i "")

/-- Index alignment of a star's image list with its asset-id list (an
absent id list counts as empty). -/
def aligned (s : StarData) : Prop :=
  s.images.length = (s.imageAssetIds.getD []).length

instance (s : StarData) : Decidable (aligned s) := by
  unfold aligned; infer_instance

/-- No restore slot of `s` has both an empty handle and an empty fallback
(the condition under which `filter(Boolean)` drops nothing). -/
def noDrop (getAsset : String → Option Blob) (mkUrl : Blob → String)
    (s : StarData) : Prop :=
  ∀ i, i < s.images.length →
    restoredSlot getAsset mkUrl (s.imageAssetIds.getD []) s.images i ≠ ""

instance (g : String → Option Blob) (u : Blob → String) (s : StarData) :
    Decidable (noDrop g u s) := by
  unfold noDrop; infer_instance

/-- A concrete song used to instantiate theorems. -/
def wSong : Song := { id := "s0", name := "song", url := "blob:a", assetId := none }

/-- A concrete inactive star with id 1 used to instantiate theorems. -/
def wStar1 : StarData :=
  { id := 1, position := (0, 0, 0), images := [], imageAssetIds := none
    text := none, isActive := false, viewCount := 0 }

/-- A loaded star whose single asset id has no prior image slot: the saved
Document carries `imageAssetIds = ["X"]` but an empty `images` list. -/
def cStarNoImage : StarData :=
  { id := 0, position := (0, 0, 0), images := [], imageAssetIds := some ["X"]
    text := none, isActive := false, viewCount := 0 }

/-- A loaded star whose single image slot is the empty string while its
asset id `"X"` is unresolvable. -/
def cStarEmptySlot : StarData :=
  { id := 0, position := (0, 0, 0), images := [""], imageAssetIds := some ["X"]
    text := none, isActive := false, viewCount := 0 }

/-- An asset store holding one binary under id `"X"`. -/
def storeWithX : String → Option Blob :=
  fun a => if a = "X" then some "BX" else none

/-- An empty asset store. -/
def emptyStore : String → Option Blob := fun _ => none

/-- A degenerate object-url allocator for concrete instantiations. -/
def idUrl : Blob → String := fun b => b

/-- A concrete restorable star: one image slot, one resolvable asset id. -/
def wStarRestorable : StarData :=
  { id := 2, position := (0, 0, 0), images := ["/assets/p.jpg"]
    imageAssetIds := some ["X"], text := some "hello", isActive := true
    viewCount := 3 }

/-- A concrete seed star used for the seed-promotion and export claims. -/
def wSeedStar : StarData :=
  { id := 0, position := (1, 2, 3), images := ["/assets/seed.jpg"]
    imageAssetIds := none, text := some "memory", isActive := true
    viewCount := 0 }

/-- A star with one transcodable and one untranscodable image reference. -/
def wExpStar : StarData :=
  { id := 3, position := (0, 0, 0), images := ["/a.png", "/b.png"]
    imageAssetIds := some ["X", "Y"], text := some "note", isActive := true
    viewCount := 1 }

/-- A fetch-and-encode step that succeeds only on `"/a.png"`. -/
def encW : String → Option String :=
  fun s => if s = "/a.png" then some "data:image/png;base64,AAA" else none

/-- Default song used with `List.getD` in theorem statements. -/
def dSong : Song := { id := "", name := "", url := "", assetId := none }

/-- A song whose url the transcoder `encW` can encode. -/
def wSongA : Song := { id := "a", name := "A", url := "/a.png", assetId := some "QA" }

/-- A song whose url the transcoder `encW` fails on. -/
def wSongB : Song := { id := "b", name := "B", url := "/b.png", assetId := some "QB" }

/-! Helper lemmas about the recursive slot functions and list indexing. -/

lemma resolveSlots_length (blobUrls : List String) :
    ∀ (l : List String) (j : Nat), (resolveSlots blobUrls j l).length = l.length := by
  intro l
  induction l with
  | nil => intro j; rfl
  | cons a rest ih => intro j; simp [resolveSlots, ih]

lemma resolveSlots_getD (blobUrls : List String) :
    ∀ (l : List String) (j i : Nat), i < l.length →
      (resolveSlots blobUrls j l).getD i "" =
        jsOr (blobUrls.getD (j + i) "") (l.getD i "") := by
  intro l
  induction l with
  | nil => intro j i h; simp at h
  | cons a rest ih =>
      intro j i h
      cases i with
      | zero => simp [resolveSlots, List.getD]
      | succ i2 =>
          have h2 : i2 < rest.length := by simpa using h
          have := ih (j + 1) i2 h2
          simpa [resolveSlots, List.getD, Nat.add_assoc, Nat.add_comm, Nat.add_left_comm] using this

lemma forall_mem_of_forall_getD {P : String → Prop} :
    ∀ (l : List String), (∀ i, i < l.length → P (l.getD i "")) → ∀ a ∈ l, P a := by
  intro l
  induction l with
  | nil => intro _ a ha; simp at ha
  | cons b rest ih =>
      intro h a ha
      rcases List.mem_cons.mp ha with rfl | hmem
      · exact h 0 (by simp)
      · exact ih (fun i hi => by
          have := h (i + 1) (by simpa using Nat.succ_lt_succ hi)
          simpa [List.getD] using this) a hmem

lemma filter_keep_all {α : Type} (p : α → Bool) :
    ∀ (l : List α), (∀ a ∈ l, p a = true) → l.filter p = l := by
  intro l
  induction l with
  | nil => intro _; rfl
  | cons b rest ih =>
      intro h
      have hb : p b = true := h b (List.mem_cons_self b rest)
      simp [List.filter, hb, ih (fun a ha => h a (List.mem_cons_of_mem b ha))]

lemma list_getD_map {α β : Type} (f : α → β) (dA : α) (dB : β) :
    ∀ (l : List α) (i : Nat), i < l.length → (l.map f).getD i dB = f (l.getD i dA) := by
  intro l
  induction l with
  | nil => intro i h; simp at h
  | cons a rest ih =>
      intro i h
      cases i with
      | zero => simp [List.getD]
      | succ i2 =>
          have h2 : i2 < rest.length := by simpa using h
          simpa [List.getD] using ih i2 h2

lemma processImagesAux_length (freshId : Nat → String) :
    ∀ (l : List TempImage) (j : Nat), (processImagesAux freshId j l).length = l.length := by
  intro l
  induction l with
  | nil => intro j; rfl
  | cons a rest ih => intro j; simp [processImagesAux, ih]

lemma starClickTempsAux_length (ids : Option (List String)) :
    ∀ (l : List String) (j : Nat), (starClickTempsAux ids j l).length = l.length := by
  intro l
  induction l with
  | nil => intro j; rfl
  | cons a rest ih => intro j; simp [starClickTempsAux, ih]

lemma eraseIdx_length_le {α : Type} :
    ∀ (l : List α) (i : Nat), (l.eraseIdx i).length ≤ l.length := by
  intro l
  induction l with
  | nil => intro i; simp [List.eraseIdx]
  | cons a rest ih =>
      intro i
      cases i with
      | zero => simp [List.eraseIdx]
      | succ i2 =>
          simpa [List.eraseIdx] using Nat.succ_le_succ (ih i2)

lemma map_eq_self_of {α : Type} (f : α → α) :
    ∀ (l : List α), (∀ a ∈ l, f a = a) → l.map f = l := by
  intro l
  induction l with
  | nil => intro _; rfl
  | cons a rest ih =>
      intro h
      simp [h a (List.mem_cons_self a rest),
        ih (fun b hb => h b (List.mem_cons_of_mem a hb))]

lemma processFiles_le (mkUrl : Blob → String) (t : List TempImage) (files : List Blob) :
    (processFiles mkUrl t files).length ≤ max t.length 4 ∧
    (t.length ≤ 4 → (processFiles mkUrl t files).length ≤ 4) := by
  by_cases h : t.length ≥ 4
  · have he : processFiles mkUrl t files = t := by simp [processFiles, h]
    rw [he]
    exact ⟨Nat.le_max_left _ _, fun h4 => h4⟩
  · have he : (processFiles mkUrl t files).length
        = t.length + min (4 - t.length) files.length := by
      simp [processFiles, h, List.length_take]
    have h1 : min (4 - t.length) files.length ≤ 4 - t.length := Nat.min_le_left _ _
    have h2 : (processFiles mkUrl t files).length ≤ 4 := by omega
    exact ⟨le_trans h2 (Nat.le_max_right _ _), fun _ => h2⟩

lemma restore_noDrop_images (g : String → Option Blob) (u : Blob → String)
    (s : StarData) (ids : List String) (hids : s.imageAssetIds = some ids)
    (hpos : ids.length > 0)
    (hnd : ∀ i, i < s.images.length →
      jsOr ((blobUrlsOf g u ids).getD i "") (s.images.getD i "") ≠ "") :
    (restoreStar g u s).images = resolveSlots (blobUrlsOf g u ids) 0 s.images ∧
    (restoreStar g u s).images.length = s.images.length ∧
    (restoreStar g u s).imageAssetIds = some ids := by
  have hall : ∀ a ∈ resolveSlots (blobUrlsOf g u ids) 0 s.images, (a != "") = true := by
    apply forall_mem_of_forall_getD
    intro i hi
    rw [resolveSlots_length] at hi
    rw [resolveSlots_getD (blobUrlsOf g u ids) s.images 0 i hi]
    have := hnd i hi
    simpa [bne_iff_ne, Nat.zero_add] using this
  have hkeep : (resolveSlots (blobUrlsOf g u ids) 0 s.images).filter
      (fun u2 => u2 != "") = resolveSlots (blobUrlsOf g u ids) 0 s.images :=
    filter_keep_all _ _ hall
  refine ⟨?_, ?_, ?_⟩
  · simp [restoreStar, hids, hpos, hkeep]
  · simp [restoreStar, hids, hpos, hkeep, resolveSlots_length]
  · simp [restoreStar, hids, hpos]

/-! Claim theorems. -/

/-- C7 (confirmed): the continuous-playback unlock flag is exactly the
predicate `playbackCount >= 60`; in particular it is `false` at 59 and
`true` at 60. -/
theorem continuous_play_unlock :
    ∀ c : Nat, (isContinuousPlayUnlocked c = true ↔ 60 ≤ c) ∧
      isContinuousPlayUnlocked 59 = false ∧ isContinuousPlayUnlocked 60 = true := by
  intro c
  refine ⟨?_, by decide, by decide⟩
  simp [isContinuousPlayUnlocked, ge_iff_le]

/-- C8 (confirmed): `saveGameState` writes the whole Document under the
single fixed key `"current"` and touches no other key; after saving the
same Document once or twice, `loadGameState` returns exactly that
Document, and a second save of any Document overwrites the record
wholesale. -/
theorem document_store_idempotent (d : GameState) (store : String → Option GameState) :
    loadGameState (saveGameState d store) = some d ∧
    loadGameState (saveGameState d (saveGameState d store)) = some d ∧
    (∀ k, k ≠ "current" → saveGameState d store k = store k) ∧
    (∀ e : GameState, loadGameState (saveGameState d (saveGameState e store)) = some d) := by
  refine ⟨?_, ?_, ?_, fun e => ?_⟩
  · simp [loadGameState, saveGameState]
  · simp [loadGameState, saveGameState]
  · intro k hk; simp [saveGameState, hk]
  · simp [loadGameState, saveGameState]

/-- C8 witness: the non-`"current"` frame condition instantiated on a
concrete store. -/
theorem document_store_idempotent_witness :
    ("x" : String) ≠ "current" ∧
      saveGameState { stars := [], playlist := [], playbackCount := 0 }
        (fun _ => none) "x" = none :=
  ⟨by decide,
    (document_store_idempotent { stars := [], playlist := [], playbackCount := 0 }
      (fun _ => none)).2.2.1 "x" (by decide)⟩

/-- C4 (confirmed): playlist capacity is `min(10, 5 + counter / 10)` (so 7
at counter 25), and an upload attempted when the playlist is at or above
capacity is rejected with an alert and no state change: the playlist and
selection are unchanged and no Document write or asset-store put occurs. -/
theorem playlist_quota (mkUrl : Blob → String) (freshId : String) (file : Blob)
    (fileName : String) (stars : List StarData) (playlist : List Song)
    (idx count : Nat) (songId : String)
    (hfull : playlist.length ≥ maxPlaylistSize count) :
    (∀ c : Nat, maxPlaylistSize c = min 10 (5 + c / 10)) ∧
    maxPlaylistSize 25 = 7 ∧
    ((handleMusicUpload mkUrl freshId file fileName stars playlist idx count songId).playlist
        = playlist ∧
      (handleMusicUpload mkUrl freshId file fileName stars playlist idx count songId).currentSongIndex
        = idx ∧
      (handleMusicUpload mkUrl freshId file fileName stars playlist idx count songId).saves = [] ∧
      (handleMusicUpload mkUrl freshId file fileName stars playlist idx count songId).assetPuts = [] ∧
      (handleMusicUpload mkUrl freshId file fileName stars playlist idx count songId).alertMsg.isSome
        = true) := by
  refine ⟨fun c => rfl, by decide, ?_⟩
  simp [handleMusicUpload, hfull]

/-- C4 witness: with counter 25 (capacity 7) an 8th append on a 7-song
playlist is rejected and nothing changes. -/
theorem playlist_quota_witness :
    (List.replicate 7 wSong).length ≥ maxPlaylistSize 25 ∧
    ((handleMusicUpload idUrl "A" "f" "f.mp3" [] (List.replicate 7 wSong) 0 25 "s1").playlist
        = List.replicate 7 wSong ∧
      (handleMusicUpload idUrl "A" "f" "f.mp3" [] (List.replicate 7 wSong) 0 25 "s1").currentSongIndex
        = 0 ∧
      (handleMusicUpload idUrl "A" "f" "f.mp3" [] (List.replicate 7 wSong) 0 25 "s1").saves = [] ∧
      (handleMusicUpload idUrl "A" "f" "f.mp3" [] (List.replicate 7 wSong) 0 25 "s1").assetPuts = [] ∧
      (handleMusicUpload idUrl "A" "f" "f.mp3" [] (List.replicate 7 wSong) 0 25 "s1").alertMsg.isSome
        = true) :=
  ⟨by decide,
    (playlist_quota idUrl "A" "f" "f.mp3" [] (List.replicate 7 wSong) 0 25 "s1"
      (by decide)).2.2⟩

/-- C10 (confirmed): `handleStarView` increments the view counter of the
star at each index whose id matches, changes no other field of that star,
leaves non-matching stars untouched, leaves the whole list unchanged when
no id matches, and persists the new stars with the playlist and counter
passed through unchanged. -/
theorem star_view_frame (id : Nat) (stars : List StarData) (playlist : List Song)
    (count : Nat) :
    (handleStarView id stars playlist count).stars.length = stars.length ∧
    (∀ i, i < stars.length →
      ((stars.getD i dStar).id = id →
        (handleStarView id stars playlist count).stars.getD i dStar =
          { stars.getD i dStar with viewCount := (stars.getD i dStar).viewCount + 1 }) ∧
      ((stars.getD i dStar).id ≠ id →
        (handleStarView id stars playlist count).stars.getD i dStar = stars.getD i dStar)) ∧
    ((∀ s ∈ stars, s.id ≠ id) → (handleStarView id stars playlist count).stars = stars) ∧
    (handleStarView id stars playlist count).saves =
      [{ stars := (handleStarView id stars playlist count).stars
         playlist := playlist, playbackCount := count }] := by
  refine ⟨by simp [handleStarView], ?_, ?_, rfl⟩
  · intro i hi
    have hmap := list_getD_map
      (fun star : StarData =>
        if star.id = id then { star with viewCount := star.viewCount + 1 } else star)
      dStar dStar stars i hi
    have hmap2 : (handleStarView id stars playlist count).stars.getD i dStar =
        (if (stars.getD i dStar).id = id then
          { stars.getD i dStar with viewCount := (stars.getD i dStar).viewCount + 1 }
         else stars.getD i dStar) := hmap
    constructor
    · intro h; rw [hmap2, if_pos h]
    · intro h; rw [hmap2, if_neg h]
  · intro h
    have : (handleStarView id stars playlist count).stars = stars.map
        (fun star =>
          if star.id = id then { star with viewCount := star.viewCount + 1 } else star) := rfl
    rw [this]
    exact map_eq_self_of _ stars (fun a ha => by simp [h a ha])

/-- C10 witness: viewing id 5 on a list without that id changes nothing. -/
theorem star_view_frame_witness :
    (∀ s ∈ [wStar1], s.id ≠ 5) ∧ (handleStarView 5 [wStar1] [] 0).stars = [wStar1] :=
  ⟨by decide, (star_view_frame 5 [wStar1] [] 0).2.2.1 (by decide)⟩

/-- C1 counterexample: a loaded Entity with k = 1 asset identifiers but an
empty prior image list reconciles to an image list of length 0, not 1, even
though the asset id resolves in the store — the restore iterates over the
prior image list, not the identifier list. -/
theorem reconcile_length_counterexample :
    storeWithX "X" = some "BX" ∧
    cStarNoImage.imageAssetIds = some ["X"] ∧
    (restoreStar storeWithX idUrl cStarNoImage).images.length = 0 := by
  refine ⟨by decide, rfl, by decide⟩

/-- C1 (corrected, amended): restore iterates positionally over the prior
image-reference list; when that list also has length k and no slot has both
an empty resolved handle and an empty fallback, the restored image list has
length exactly k and slot i is the handle-or-fallback value: non-empty,
and either the ephemeral handle of a successfully resolved asset or the
positionally corresponding prior image reference. -/
theorem reconcile_slots_amended (getAsset : String → Option Blob)
    (mkUrl : Blob → String) (s : StarData) (ids : List String)
    (hids : s.imageAssetIds = some ids) (hne : ids ≠ [])
    (hlen : s.images.length = ids.length)
    (hnd : ∀ i, i < s.images.length → restoredSlot getAsset mkUrl ids s.images i ≠ "") :
    (restoreStar getAsset mkUrl s).images.length = ids.length ∧
    (∀ i, i < ids.length →
      (restoreStar getAsset mkUrl s).images.getD i "" =
        restoredSlot getAsset mkUrl ids s.images i ∧
      (restoreStar getAsset mkUrl s).images.getD i "" ≠ "" ∧
      ((∃ b, getAsset (ids.getD i "") = some b ∧
          (restoreStar getAsset mkUrl s).images.getD i "" = mkUrl b) ∨
        (restoreStar getAsset mkUrl s).images.getD i "" = s.images.getD i "")) := by
  have hpos : ids.length > 0 := List.length_pos.mpr hne
  have hall : ∀ a ∈ resolveSlots (blobUrlsOf getAsset mkUrl ids) 0 s.images,
      (a != "") = true := by
    apply forall_mem_of_forall_getD
    intro i hi
    rw [resolveSlots_length] at hi
    rw [resolveSlots_getD (blobUrlsOf getAsset mkUrl ids) s.images 0 i hi]
    have := hnd i hi
    simpa [restoredSlot, bne_iff_ne, Nat.zero_add] using this
  have hkeep : (resolveSlots (blobUrlsOf getAsset mkUrl ids) 0 s.images).filter
      (fun u => u != "") = resolveSlots (blobUrlsOf getAsset mkUrl ids) 0 s.images :=
    filter_keep_all _ _ hall
  have him : (restoreStar getAsset mkUrl s).images =
      resolveSlots (blobUrlsOf getAsset mkUrl ids) 0 s.images := by
    simp [restoreStar, hids, hpos, hkeep]
  refine ⟨by rw [him, resolveSlots_length, hlen], ?_⟩
  intro i hi
  have hii : i < s.images.length := by rw [hlen]; exact hi
  have hslot : (restoreStar getAsset mkUrl s).images.getD i "" =
      restoredSlot getAsset mkUrl ids s.images i := by
    rw [him, resolveSlots_getD (blobUrlsOf getAsset mkUrl ids) s.images 0 i hii]
    simp [restoredSlot, Nat.zero_add]
  refine ⟨hslot, by rw [hslot]; exact hnd i hii, ?_⟩
  have hbu : (blobUrlsOf getAsset mkUrl ids).getD i "" =
      (match getAsset (ids.getD i "") with
        | some b => mkUrl b
        | none => "") := by
    exact list_getD_map _ "" "" ids i hi
  rw [hslot]
  unfold restoredSlot
  rw [hbu]
  cases hga : getAsset (ids.getD i "") with
  | none => right; simp [jsOr]
  | some b =>
      by_cases hb : mkUrl b = ""
      · right; simp [jsOr, hb]
      · left; exact ⟨b, rfl, by simp [jsOr, hb]⟩

/-- C1 witness: a star with one image slot and one resolvable asset id
restores to exactly one non-empty slot. -/
theorem reconcile_slots_amended_witness :
    (wStarRestorable.imageAssetIds = some ["X"] ∧ (["X"] : List String) ≠ [] ∧
      wStarRestorable.images.length = (["X"] : List String).length ∧
      (∀ i, i < wStarRestorable.images.length →
        restoredSlot storeWithX idUrl ["X"] wStarRestorable.images i ≠ "")) ∧
    ((restoreStar storeWithX idUrl wStarRestorable).images.length =
        (["X"] : List String).length ∧
      (∀ i, i < (["X"] : List String).length →
        (restoreStar storeWithX idUrl wStarRestorable).images.getD i "" =
          restoredSlot storeWithX idUrl ["X"] wStarRestorable.images i ∧
        (restoreStar storeWithX idUrl wStarRestorable).images.getD i "" ≠ "" ∧
        ((∃ b, storeWithX ((["X"] : List String).getD i "") = some b ∧
            (restoreStar storeWithX idUrl wStarRestorable).images.getD i "" = idUrl b) ∨
          (restoreStar storeWithX idUrl wStarRestorable).images.getD i "" =
            wStarRestorable.images.getD i ""))) :=
  ⟨⟨rfl, by decide, by decide, by decide⟩,
    reconcile_slots_amended storeWithX idUrl wStarRestorable ["X"] rfl
      (by decide) (by decide) (by decide)⟩

/-- C3 counterexample: part_001's `init`, run with no saved Document and a
seed snapshot containing one entity, writes nothing to the Document
Store. -/
theorem seed_promotion_counterexample :
    ([wSeedStar] : List StarData).length > 0 ∧
    (init1 emptyStore idUrl none [wSeedStar] [wSong] 0 []).saves = [] := by
  exact ⟨by decide, by decide⟩

/-- C3 (corrected, amended): with no saved Document and a non-empty seed,
part_000's `init` immediately persists exactly the seed snapshot (stars,
playlist, progression counter) as the initial Document and uses the seed as
the live model, while part_001's `init` writes no Document at all in that
situation. -/
theorem seed_promotion_amended (getAsset : String → Option Blob) (mkUrl : Blob → String)
    (seedStars : List StarData) (seedPlaylist : List Song) (seedCount : Nat)
    (fallback : List StarData) (h : seedStars ≠ []) :
    (init0 getAsset mkUrl none seedStars seedPlaylist seedCount fallback).saves =
      [{ stars := seedStars, playlist := seedPlaylist, playbackCount := seedCount }] ∧
    (init0 getAsset mkUrl none seedStars seedPlaylist seedCount fallback).stars = seedStars ∧
    (init0 getAsset mkUrl none seedStars seedPlaylist seedCount fallback).playlist = seedPlaylist ∧
    (init0 getAsset mkUrl none seedStars seedPlaylist seedCount fallback).playbackCount = seedCount ∧
    (init1 getAsset mkUrl none seedStars seedPlaylist seedCount fallback).saves = [] := by
  have hpos : seedStars.length > 0 := List.length_pos.mpr h
  refine ⟨?_, ?_, rfl, rfl, rfl⟩
  · simp [init0, hpos]
  · simp [init0, hpos]

/-- C2 counterexample: a persisted Entity with one (empty-string) image
slot and one asset identifier is index-aligned, but after reconciliation
with that asset missing (the slot is dropped, the identifier kept) the next
Document persisted by `handleStarView` holds an Entity with 0 image
references and 1 asset identifier. -/
theorem alignment_counterexample :
    aligned cStarEmptySlot ∧
    ¬ aligned
      (((handleStarView 0
            (init1 emptyStore idUrl
              (some { stars := [cStarEmptySlot], playlist := [], playbackCount := 0 })
              [] [] 0 []).stars [] 0).saves.getD 0
          { stars := [], playlist := [], playbackCount := 0 }).stars.getD 0 dStar) := by
  exact ⟨by decide, by decide⟩

/-- C2 (corrected, amended): index alignment is established and preserved
by the mutation pipeline — `handleLaunchStar` writes the launched Entity's
image and identifier lists from one processed list at equal length, and
`handleStarView` persists every Entity's lists untouched — and
reconciliation preserves an aligned Entity exactly when no slot is dropped;
when a slot has both an empty handle and an empty fallback, reconciliation
keeps the identifier list while shrinking the image list, so the next
persisted Document is misaligned. -/
theorem alignment_amended :
    (∀ (freshId : Nat → String) (eid : Nat) (t : List TempImage) (txt : String)
        (stars : List StarData) (playlist : List Song) (count : Nat),
      (∀ s ∈ stars, aligned s) →
      ∀ d ∈ (handleLaunchStar freshId (some eid) t txt stars playlist count).saves,
        ∀ s ∈ d.stars, aligned s) ∧
    (∀ (g : String → Option Blob) (u : Blob → String) (s : StarData),
      aligned s → noDrop g u s →
        aligned (restoreStar g u s) ∧
        (restoreStar g u s).imageAssetIds = s.imageAssetIds) ∧
    (∀ (id : Nat) (stars : List StarData) (playlist : List Song) (count : Nat),
      (∀ s ∈ stars, aligned s) →
      ∀ d ∈ (handleStarView id stars playlist count).saves,
        ∀ s ∈ d.stars, aligned s) := by
  refine ⟨?_, ?_, ?_⟩
  · intro freshId eid t txt stars playlist count hal d hd s hs
    have hd2 : d = { stars := (handleLaunchStar freshId (some eid) t txt stars playlist count).stars
                     playlist := playlist, playbackCount := count } := by
      simpa [handleLaunchStar] using hd
    rw [hd2] at hs
    have hs2 : s ∈ stars.map (fun star =>
        if star.id = eid then
          { star with
              isActive := true
              images := (processImagesAux freshId 0 t).map (fun p => p.url)
              imageAssetIds := some ((processImagesAux freshId 0 t).map (fun p => p.assetId.getD ""))
              text := some txt
              viewCount := 0 }
        else star) := hs
    rcases List.mem_map.mp hs2 with ⟨a, ha, rfl⟩
    by_cases h : a.id = eid
    · simp [aligned, h]
    · simpa [aligned, h] using hal a ha
  · intro g u s hal hnd
    cases hids : s.imageAssetIds with
    | none =>
        constructor
        · simpa [restoreStar, hids] using hal
        · simp [restoreStar, hids]
    | some ids =>
        rcases Nat.eq_zero_or_pos ids.length with hz | hpos
        · constructor
          · simpa [restoreStar, hids, hz] using hal
          · simp [restoreStar, hids, hz]
        · have hnd2 : ∀ i, i < s.images.length →
              jsOr ((blobUrlsOf g u ids).getD i "") (s.images.getD i "") ≠ "" := by
            intro i hi
            have := hnd i hi
            simpa [restoredSlot, hids] using this
          obtain ⟨_, hlen, hids2⟩ := restore_noDrop_images g u s ids hids hpos hnd2
          constructor
          · unfold aligned
            rw [hlen, hids2]
            simpa [aligned, hids] using hal
          · simp [hids2, hids]
  · intro id stars playlist count hal d hd s hs
    have hd2 : d = { stars := (handleStarView id stars playlist count).stars
                     playlist := playlist, playbackCount := count } := by
      simpa [handleStarView] using hd
    rw [hd2] at hs
    have hs2 : s ∈ stars.map (fun star =>
        if star.id = id then { star with viewCount := star.viewCount + 1 } else star) := hs
    rcases List.mem_map.mp hs2 with ⟨a, ha, rfl⟩
    by_cases h : a.id = id
    · simpa [aligned, h] using hal a ha
    · simpa [aligned, h] using hal a ha

/-- C2 witness: reconciliation of an aligned star whose asset resolves
preserves alignment and the identifier list. -/
theorem alignment_amended_witness :
    aligned wStarRestorable ∧ noDrop storeWithX idUrl wStarRestorable ∧
    (aligned (restoreStar storeWithX idUrl wStarRestorable) ∧
      (restoreStar storeWithX idUrl wStarRestorable).imageAssetIds =
        wStarRestorable.imageAssetIds) :=
  ⟨by decide, by decide,
    alignment_amended.2.1 storeWithX idUrl wStarRestorable (by decide) (by decide)⟩

/-- C3 witness: the seed-promotion write instantiated on a one-star seed. -/
theorem seed_promotion_amended_witness :
    ([wSeedStar] : List StarData) ≠ [] ∧
    ((init0 emptyStore idUrl none [wSeedStar] [wSong] 7 []).saves =
        [{ stars := [wSeedStar], playlist := [wSong], playbackCount := 7 }] ∧
      (init0 emptyStore idUrl none [wSeedStar] [wSong] 7 []).stars = [wSeedStar] ∧
      (init0 emptyStore idUrl none [wSeedStar] [wSong] 7 []).playlist = [wSong] ∧
      (init0 emptyStore idUrl none [wSeedStar] [wSong] 7 []).playbackCount = 7 ∧
      (init1 emptyStore idUrl none [wSeedStar] [wSong] 7 []).saves = []) :=
  ⟨by decide,
    seed_promotion_amended emptyStore idUrl [wSeedStar] [wSong] 7 [] (by decide)⟩

/-- C5 (confirmed): exporting the model obtained by reconciling a non-empty
seed with no saved Document and no intervening mutation yields the same
entity count, the same text per entity, and the same activation flags as
the seed, for every transcoding outcome. -/
theorem export_roundtrip (g : String → Option Blob) (u : Blob → String)
    (enc : String → Option String) (seedStars : List StarData)
    (seedPlaylist : List Song) (seedCount : Nat) (fallback : List StarData)
    (h : seedStars ≠ []) :
    (handleExportData enc
        (init1 g u none seedStars seedPlaylist seedCount fallback).stars
        (init1 g u none seedStars seedPlaylist seedCount fallback).playlist
        (init1 g u none seedStars seedPlaylist seedCount fallback).playbackCount).stars.length
      = seedStars.length ∧
    (∀ i, i < seedStars.length →
      ((handleExportData enc
          (init1 g u none seedStars seedPlaylist seedCount fallback).stars
          (init1 g u none seedStars seedPlaylist seedCount fallback).playlist
          (init1 g u none seedStars seedPlaylist seedCount fallback).playbackCount).stars.getD
            i dStar).text = (seedStars.getD i dStar).text ∧
      ((handleExportData enc
          (init1 g u none seedStars seedPlaylist seedCount fallback).stars
          (init1 g u none seedStars seedPlaylist seedCount fallback).playlist
          (init1 g u none seedStars seedPlaylist seedCount fallback).playbackCount).stars.getD
            i dStar).isActive = (seedStars.getD i dStar).isActive) ∧
    (handleExportData enc
        (init1 g u none seedStars seedPlaylist seedCount fallback).stars
        (init1 g u none seedStars seedPlaylist seedCount fallback).playlist
        (init1 g u none seedStars seedPlaylist seedCount fallback).playbackCount).playbackCount
      = seedCount := by
  have hpos : seedStars.length > 0 := List.length_pos.mpr h
  have hstars : (init1 g u none seedStars seedPlaylist seedCount fallback).stars = seedStars := by
    simp [init1, hpos]
  have hpl : (init1 g u none seedStars seedPlaylist seedCount fallback).playlist
      = seedPlaylist := by
    simp [init1]
  have hc : (init1 g u none seedStars seedPlaylist seedCount fallback).playbackCount
      = seedCount := by
    simp [init1]
  rw [hstars, hpl, hc]
  refine ⟨by simp [handleExportData], ?_, rfl⟩
  intro i hi
  have hout : (handleExportData enc seedStars seedPlaylist seedCount).stars.getD i dStar =
      { seedStars.getD i dStar with
          images := (seedStars.getD i dStar).images.map (urlToBase64 enc)
          imageAssetIds := none } :=
    list_getD_map _ dStar dStar seedStars i hi
  rw [hout]
  exact ⟨rfl, rfl⟩

/-- C5 witness: the round-trip equalities on a concrete one-star seed with
a transcoder that fails on its image. -/
theorem export_roundtrip_witness :
    ([wSeedStar] : List StarData) ≠ [] ∧
    ((handleExportData encW
        (init1 emptyStore idUrl none [wSeedStar] [wSong] 5 []).stars
        (init1 emptyStore idUrl none [wSeedStar] [wSong] 5 []).playlist
        (init1 emptyStore idUrl none [wSeedStar] [wSong] 5 []).playbackCount).stars.length
      = ([wSeedStar] : List StarData).length ∧
    (∀ i, i < ([wSeedStar] : List StarData).length →
      ((handleExportData encW
          (init1 emptyStore idUrl none [wSeedStar] [wSong] 5 []).stars
          (init1 emptyStore idUrl none [wSeedStar] [wSong] 5 []).playlist
          (init1 emptyStore idUrl none [wSeedStar] [wSong] 5 []).playbackCount).stars.getD
            i dStar).text = (([wSeedStar] : List StarData).getD i dStar).text ∧
      ((handleExportData encW
          (init1 emptyStore idUrl none [wSeedStar] [wSong] 5 []).stars
          (init1 emptyStore idUrl none [wSeedStar] [wSong] 5 []).playlist
          (init1 emptyStore idUrl none [wSeedStar] [wSong] 5 []).playbackCount).stars.getD
            i dStar).isActive = (([wSeedStar] : List StarData).getD i dStar).isActive) ∧
    (handleExportData encW
        (init1 emptyStore idUrl none [wSeedStar] [wSong] 5 []).stars
        (init1 emptyStore idUrl none [wSeedStar] [wSong] 5 []).playlist
        (init1 emptyStore idUrl none [wSeedStar] [wSong] 5 []).playbackCount).playbackCount
      = 5) :=
  ⟨by decide,
    export_roundtrip emptyStore idUrl encW [wSeedStar] [wSong] 5 [] (by decide)⟩

/-- C6 (confirmed): export is total and per-slot for every asset category —
every star keeps its image count and the playlist keeps its entry count
with each song's id and name intact; an image slot or song url whose
transcoding fails falls back to its original reference while one whose
transcoding succeeds carries the encoded form, an already-inline reference
passes through, and the persistent asset identifiers of stars and songs
are stripped from the output. -/
theorem export_failure_isolation (enc : String → Option String)
    (stars : List StarData) (playlist : List Song) (count : Nat) :
    (handleExportData enc stars playlist count).stars.length = stars.length ∧
    (∀ i, i < stars.length →
      ((handleExportData enc stars playlist count).stars.getD i dStar).images.length =
        (stars.getD i dStar).images.length ∧
      (∀ j, j < (stars.getD i dStar).images.length →
        (strStartsWith ((stars.getD i dStar).images.getD j "") "data:" = true →
          ((handleExportData enc stars playlist count).stars.getD i dStar).images.getD j "" =
            (stars.getD i dStar).images.getD j "") ∧
        (strStartsWith ((stars.getD i dStar).images.getD j "") "data:" = false →
          enc ((stars.getD i dStar).images.getD j "") = none →
          ((handleExportData enc stars playlist count).stars.getD i dStar).images.getD j "" =
            (stars.getD i dStar).images.getD j "") ∧
        (∀ b, strStartsWith ((stars.getD i dStar).images.getD j "") "data:" = false →
          enc ((stars.getD i dStar).images.getD j "") = some b →
          ((handleExportData enc stars playlist count).stars.getD i dStar).images.getD j ""
            = b))) ∧
    (handleExportData enc stars playlist count).playlist.length = playlist.length ∧
    (∀ i, i < playlist.length →
      ((handleExportData enc stars playlist count).playlist.getD i dSong).id =
        (playlist.getD i dSong).id ∧
      ((handleExportData enc stars playlist count).playlist.getD i dSong).name =
        (playlist.getD i dSong).name ∧
      (strStartsWith (playlist.getD i dSong).url "data:" = true →
        ((handleExportData enc stars playlist count).playlist.getD i dSong).url =
          (playlist.getD i dSong).url) ∧
      (strStartsWith (playlist.getD i dSong).url "data:" = false →
        enc (playlist.getD i dSong).url = none →
        ((handleExportData enc stars playlist count).playlist.getD i dSong).url =
          (playlist.getD i dSong).url) ∧
      (∀ b, strStartsWith (playlist.getD i dSong).url "data:" = false →
        enc (playlist.getD i dSong).url = some b →
        ((handleExportData enc stars playlist count).playlist.getD i dSong).url = b)) ∧
    (∀ s ∈ (handleExportData enc stars playlist count).stars, s.imageAssetIds = none) ∧
    (∀ s ∈ (handleExportData enc stars playlist count).playlist, s.assetId = none) := by
  refine ⟨by simp [handleExportData], ?_, by simp [handleExportData], ?_, ?_, ?_⟩
  · intro i hi
    have hout : (handleExportData enc stars playlist count).stars.getD i dStar =
        { stars.getD i dStar with
            images := (stars.getD i dStar).images.map (urlToBase64 enc)
            imageAssetIds := none } :=
      list_getD_map _ dStar dStar stars i hi
    refine ⟨by rw [hout]; simp, ?_⟩
    intro j hj
    have hslot : ((handleExportData enc stars playlist count).stars.getD i dStar).images.getD
        j "" = urlToBase64 enc ((stars.getD i dStar).images.getD j "") := by
      rw [hout]
      exact list_getD_map (urlToBase64 enc) "" "" _ j hj
    refine ⟨?_, ?_, ?_⟩
    · intro hs
      rw [hslot]
      set X := (stars.getD i dStar).images.getD j "" with hX
      simp [urlToBase64, hs]
    · intro hs he
      rw [hslot]
      set X := (stars.getD i dStar).images.getD j "" with hX
      simp [urlToBase64, hs, he]
    · intro b hs he
      rw [hslot]
      set X := (stars.getD i dStar).images.getD j "" with hX
      simp [urlToBase64, hs, he]
  · intro i hi
    have hout : (handleExportData enc stars playlist count).playlist.getD i dSong =
        { id := (playlist.getD i dSong).id
          name := (playlist.getD i dSong).name
          url := if strStartsWith (playlist.getD i dSong).url "data:"
                 then (playlist.getD i dSong).url
                 else urlToBase64 enc (playlist.getD i dSong).url
          assetId := none } :=
      list_getD_map _ dSong dSong playlist i hi
    refine ⟨by rw [hout], by rw [hout], ?_, ?_, ?_⟩
    · intro hs
      rw [hout]
      set X := (playlist.getD i dSong).url with hX
      simp [hs]
    · intro hs he
      rw [hout]
      set X := (playlist.getD i dSong).url with hX
      simp [urlToBase64, hs, he]
    · intro b hs he
      rw [hout]
      set X := (playlist.getD i dSong).url with hX
      simp [urlToBase64, hs, he]
  · intro s hs
    rcases List.mem_map.mp hs with ⟨a, _, rfl⟩
    rfl
  · intro s hs
    rcases List.mem_map.mp hs with ⟨a, _, rfl⟩
    rfl

/-- C6 witness: on a star with two image references and a two-song
playlist, the transcoder failing on the second image and the second song
leaves both as their original references while the first image and first
song are still encoded, and the exported assetIds are stripped. -/
theorem export_failure_isolation_witness :
    (strStartsWith (([wExpStar].getD 0 dStar).images.getD 1 "") "data:" = false ∧
      encW (([wExpStar].getD 0 dStar).images.getD 1 "") = none ∧
      ((handleExportData encW [wExpStar] [wSongA, wSongB] 0).stars.getD 0 dStar).images.getD
          1 "" = ([wExpStar].getD 0 dStar).images.getD 1 "") ∧
    (strStartsWith (([wExpStar].getD 0 dStar).images.getD 0 "") "data:" = false ∧
      encW (([wExpStar].getD 0 dStar).images.getD 0 "") =
        some "data:image/png;base64,AAA" ∧
      ((handleExportData encW [wExpStar] [wSongA, wSongB] 0).stars.getD 0 dStar).images.getD
          0 "" = "data:image/png;base64,AAA") ∧
    (strStartsWith (([wSongA, wSongB].getD 1 dSong).url) "data:" = false ∧
      encW (([wSongA, wSongB].getD 1 dSong).url) = none ∧
      ((handleExportData encW [wExpStar] [wSongA, wSongB] 0).playlist.getD 1 dSong).url =
        ([wSongA, wSongB].getD 1 dSong).url) ∧
    (strStartsWith (([wSongA, wSongB].getD 0 dSong).url) "data:" = false ∧
      encW (([wSongA, wSongB].getD 0 dSong).url) = some "data:image/png;base64,AAA" ∧
      ((handleExportData encW [wExpStar] [wSongA, wSongB] 0).playlist.getD 0 dSong).url =
        "data:image/png;base64,AAA") ∧
    (∀ s ∈ (handleExportData encW [wExpStar] [wSongA, wSongB] 0).stars,
      s.imageAssetIds = none) ∧
    (∀ s ∈ (handleExportData encW [wExpStar] [wSongA, wSongB] 0).playlist,
      s.assetId = none) :=
  ⟨⟨by decide, by decide,
      (((export_failure_isolation encW [wExpStar] [wSongA, wSongB] 0).2.1 0
          (by decide)).2 1 (by decide)).2.1 (by decide) (by decide)⟩,
    ⟨by decide, by decide,
      (((export_failure_isolation encW [wExpStar] [wSongA, wSongB] 0).2.1 0
          (by decide)).2 0 (by decide)).2.2 "data:image/png;base64,AAA"
        (by decide) (by decide)⟩,
    ⟨by decide, by decide,
      ((export_failure_isolation encW [wExpStar] [wSongA, wSongB] 0).2.2.2.1 1
          (by decide)).2.2.2.1 (by decide) (by decide)⟩,
    ⟨by decide, by decide,
      ((export_failure_isolation encW [wExpStar] [wSongA, wSongB] 0).2.2.2.1 0
          (by decide)).2.2.2.2 "data:image/png;base64,AAA" (by decide) (by decide)⟩,
    (export_failure_isolation encW [wExpStar] [wSongA, wSongB] 0).2.2.2.2.1,
    (export_failure_isolation encW [wExpStar] [wSongA, wSongB] 0).2.2.2.2.2⟩

/-- C9 (confirmed): `processFiles` admits at most `4 - pending` new files,
so from any reachable state of the image-attach flow over a scene whose
stars hold at most 4 images, the pending list has at most 4 entries and
every star written by `handleLaunchStar` holds at most 4 images and asset
identifiers. -/
theorem image_slots_bounded (mkUrl : Blob → String) (stars : List StarData)
    (t : List TempImage) (hstars : ∀ s ∈ stars, s.images.length ≤ 4)
    (hreach : TempReachable mkUrl stars t) :
    t.length ≤ 4 ∧
    (∀ (freshId : Nat → String) (eid : Nat) (txt : String) (playlist : List Song)
        (count : Nat),
      ∀ s ∈ (handleLaunchStar freshId (some eid) t txt stars playlist count).stars,
        s.images.length ≤ 4) ∧
    (∀ (t2 : List TempImage) (files : List Blob),
      (processFiles mkUrl t2 files).length ≤ max t2.length 4) := by
  have hb : t.length ≤ 4 := by
    induction hreach with
    | start => simp
    | click star hmem =>
        simpa [handleStarClick, starClickTempsAux_length] using hstars star hmem
    | upload t2 files ht ih => exact (processFiles_le mkUrl t2 files).2 ih
    | remove t2 i ht ih => exact le_trans (eraseIdx_length_le t2 i) ih
  refine ⟨hb, ?_, fun t2 files => (processFiles_le mkUrl t2 files).1⟩
  intro freshId eid txt playlist count s hs
  have hs2 : s ∈ stars.map (fun star =>
      if star.id = eid then
        { star with
            isActive := true
            images := (processImagesAux freshId 0 t).map (fun p => p.url)
            imageAssetIds := some ((processImagesAux freshId 0 t).map (fun p => p.assetId.getD ""))
            text := some txt
            viewCount := 0 }
      else star) := hs
  rcases List.mem_map.mp hs2 with ⟨a, ha, rfl⟩
  by_cases h : a.id = eid
  · simpa [h, processImagesAux_length] using hb
  · simpa [h] using hstars a ha

/-- C9 witness: the bound instantiated at the empty pending list over a
one-star scene. -/
theorem image_slots_bounded_witness :
    (∀ s ∈ [wStar1], s.images.length ≤ 4) ∧
    (([] : List TempImage).length ≤ 4 ∧
      (∀ (freshId : Nat → String) (eid : Nat) (txt : String) (playlist : List Song)
          (count : Nat),
        ∀ s ∈ (handleLaunchStar freshId (some eid) [] txt [wStar1] playlist count).stars,
          s.images.length ≤ 4) ∧
      (∀ (t2 : List TempImage) (files : List Blob),
        (processFiles idUrl t2 files).length ≤ max t2.length 4)) :=
  ⟨by decide,
    image_slots_bounded idUrl [wStar1] [] (by decide) TempReachable.start⟩

end Jade
